import Mathlib

/-!
Verification of the Explorador de Países client (`script.js`) and of the
weather acquisition/caching pipeline it talks to.

The client-side code under verification is `script.js`: the functions
`fetchWeatherForCountry`, `openModal`, `closeModal` and `switchView`.
DOM writes are embedded as explicit record fields; network responses are
embedded as an inductive of the observable shapes the code distinguishes
(`response.ok` with a parsed JSON body, non-ok with an optional `detail`
field, or a thrown error).  The backend pipeline (CacheGateway, Loader)
does not ship with the client sources; it is modelled from the spec where a
claim needs it, and those definitions say so in their doc comments.
-/

/-- A JavaScript value as the client inspects it: a string, a number, or an
absent/undefined field.  Numbers are embedded as integers since the client
only compares them for truthiness and strict (in)equality with strings. -/
inductive JVal where
  | str (s : String)
  | num (n : Int)
  | absent
  deriving Repr, DecidableEq

/-- JavaScript truthiness as used in `if (weatherData.message)` and
`errorData.detail || ...`: the empty string, zero, and undefined are falsy. -/
def JVal.truthy : JVal → Bool
  | .str s => s ≠ ""
  | .num n => n ≠ 0
  | .absent => false

/-- Coercion to string as performed by a `textContent` assignment or by the
`Error` constructor. -/
def JVal.render : JVal → String
  | .str s => s
  | .num n => toString n
  | .absent => "undefined"

/-- Parsed JSON body of a 200 response from `GET /weather/{code}`, with the
five fields `fetchWeatherForCountry` reads.  Absent fields are `JVal.absent`. -/
structure WeatherBody where
  message : JVal
  temperature : JVal
  windspeed : JVal
  time : JVal
  last_updated : JVal
  deriving Repr, DecidableEq

/-- Observable outcome of the `fetch` + `response.json()` pair in
`fetchWeatherForCountry`:
`ok body` is a 200 with a parsed body; `httpErr detail` is a non-ok response
whose parsed body carries an optional `detail` field (script.js line 267-269);
`netErr msg` is `fetch` or `json()` rejecting with an error whose message is
`msg`. -/
inductive WeatherResponse where
  | ok (body : WeatherBody)
  | httpErr (detail : JVal)
  | netErr (msg : String)
  deriving Repr, DecidableEq

/-- The innerHTML of the `weather-details` element: either cleared, or the
four-line weather block rendered at script.js lines 279-284. -/
inductive WeatherDetails where
  | empty
  | weather (temperature windspeed time last_updated : JVal)
  deriving Repr, DecidableEq

/-- The portion of the DOM that `fetchWeatherForCountry` mutates: the status
text, the details block, the spinner visibility, and the "Consultar Clima"
button state. -/
structure WeatherUI where
  statusText : String
  details : WeatherDetails
  spinnerHidden : Bool
  btnDisabled : Bool
  btnText : String
  deriving Repr, DecidableEq

/-- Result of one invocation of `fetchWeatherForCountry`: how many requests it
issued to the weather endpoint, and the final UI state (`none` when the
function returned early at line 256 because a required element was missing,
leaving the UI untouched). -/
structure FetchOutcome where
  requests : Nat
  ui : Option WeatherUI
  deriving Repr, DecidableEq

/-- Base URL of the backend API (script.js line 3). -/
def API_URL : String := "http://127.0.0.1:8000/api"

/-- URL of the single request issued by `fetchWeatherForCountry`
(script.js line 266).  The `force` argument is in scope in the source function
but does not appear in the request. -/
def weatherRequestUrl (cca3 : String) (_force : Bool) : String :=
  API_URL ++ "/weather/" ++ cca3

/-- Embedding of `fetchWeatherForCountry(cca3, force)` (script.js lines
249-300).  `present` states that all five required DOM elements exist (line
256); `resp` is the observable outcome of the network call.  The `finally`
block (lines 295-299) is reflected in every non-early-return branch ending
with the spinner hidden, the button enabled, and the label restored. -/
def fetchWeatherForCountry (_cca3 : String) (_force : Bool) (present : Bool)
    (resp : WeatherResponse) : FetchOutcome :=
  if !present then { requests := 0, ui := none }
  else
    let finalUI (status : String) (d : WeatherDetails) : WeatherUI :=
      { statusText := status, details := d,
        spinnerHidden := true, btnDisabled := false, btnText := "Consultar Clima" }
    match resp with
    | .ok body =>
      if body.message.truthy then
        { requests := 1, ui := some (finalUI body.message.render .empty) }
      else if body.temperature ≠ .str "N/A" ∧ body.windspeed ≠ .str "N/A" then
        { requests := 1,
          ui := some (finalUI "Clima actual:"
            (.weather body.temperature body.windspeed body.time body.last_updated)) }
      else
        { requests := 1,
          ui := some (finalUI "Datos de clima no disponibles o incompletos." .empty) }
    | .httpErr detail =>
      let msg := if detail.truthy then detail.render else "No se pudo obtener el clima."
      { requests := 1, ui := some (finalUI ("Error al cargar clima: " ++ msg) .empty) }
    | .netErr m =>
      { requests := 1, ui := some (finalUI ("Error al cargar clima: " ++ m) .empty) }

/-- A deferred weather-fetch call: the code and force flag that a handler or
timer passes to `fetchWeatherForCountry`. -/
structure TimerAction where
  code : String
  force : Bool
  deriving Repr, DecidableEq

/-- Click handler attached to the "Consultar Clima" button in `openModal`
(script.js line 236): `fetchWeatherForCountry(countryCode, true)`. -/
def consultarClimaBtnAction (countryCode : String) : TimerAction :=
  { code := countryCode, force := true }

/-- The call scheduled by the interval in `openModal` (script.js line 241) and
the initial call at line 240: `fetchWeatherForCountry(countryCode)`, whose
`force` parameter defaults to `false`. -/
def weatherTimerAction (countryCode : String) : TimerAction :=
  { code := countryCode, force := false }

/-- An interval timer created by `setInterval`: its id, its delay in
milliseconds, and the call it repeats. -/
structure IntervalTimer where
  id : Nat
  delayMs : Nat
  action : TimerAction
  deriving Repr, DecidableEq

/-- The client's module-level state relevant to weather polling: the set of
live interval timers (as the browser sees them), a counter supplying fresh
timer ids, and the two variables declared at script.js lines 23-24. -/
structure ClientState where
  intervals : List IntervalTimer
  nextId : Nat
  weatherUpdateIntervalId : Option Nat
  currentCountryCodeInModal : Option String
  deriving Repr, DecidableEq

/-- State before the `DOMContentLoaded` handler runs: no timers, both
variables `null`. -/
def initialClientState : ClientState :=
  { intervals := [], nextId := 0,
    weatherUpdateIntervalId := none, currentCountryCodeInModal := none }

/-- The guard `if (weatherUpdateIntervalId) { clearInterval(...);
weatherUpdateIntervalId = null; }` shared by `switchView` (lines 98-101),
`openModal` (lines 185-188) and `closeModal` (lines 304-307). -/
def clearWeatherInterval (s : ClientState) : ClientState :=
  match s.weatherUpdateIntervalId with
  | none => s
  | some i =>
    { s with intervals := s.intervals.filter (fun t => t.id ≠ i),
             weatherUpdateIntervalId := none }

/-- Timer-relevant effect of `switchView` (script.js lines 84-103): clears any
weather interval and nulls `currentCountryCodeInModal`. -/
def switchView (s : ClientState) : ClientState :=
  { clearWeatherInterval s with currentCountryCodeInModal := none }

/-- Timer-relevant effect of `openModal(countryCode, ...)` (script.js lines
181-246): clears any existing weather interval (lines 185-188), records the
displayed country (line 189), and — when the country details load succeeds
(`detailsOk`) — starts a 60000 ms interval re-invoking the weather fetch for
that country and stores its id (line 241).  On a failed details load the
`catch` block runs and no interval is created. -/
def openModal (s : ClientState) (countryCode : String) (detailsOk : Bool) :
    ClientState :=
  let s1 := clearWeatherInterval s
  let s2 := { s1 with currentCountryCodeInModal := some countryCode }
  if detailsOk then
    { s2 with
      intervals :=
        { id := s2.nextId, delayMs := 60000,
          action := weatherTimerAction countryCode } :: s2.intervals,
      weatherUpdateIntervalId := some s2.nextId,
      nextId := s2.nextId + 1 }
  else s2

/-- Timer-relevant effect of `closeModal` (script.js lines 302-309): clears
any weather interval and nulls `currentCountryCodeInModal`. -/
def closeModal (s : ClientState) : ClientState :=
  { clearWeatherInterval s with currentCountryCodeInModal := none }

/-- The client state under the real asynchronous semantics of `openModal`:
the four module-level fields plus the `openModal` invocations currently
suspended at an `await` (script.js lines 202, 205, 240) — already past the
clear-guard of lines 185-188 but not yet at the `setInterval` of line 241.
Each pending invocation remembers the country code it closed over. -/
structure AsyncClientState where
  intervals : List IntervalTimer
  nextId : Nat
  weatherUpdateIntervalId : Option Nat
  currentCountryCodeInModal : Option String
  pendingOpens : List String
  deriving Repr, DecidableEq

/-- State before the `DOMContentLoaded` handler runs: no timers, no pending
continuations, both variables `null`. -/
def initialAsyncState : AsyncClientState :=
  { intervals := [], nextId := 0, weatherUpdateIntervalId := none,
    currentCountryCodeInModal := none, pendingOpens := [] }

/-- The clear-guard of script.js lines 98-101 / 185-188 / 304-307 on the
asynchronous state: it can only remove the interval currently tracked by
`weatherUpdateIntervalId`. -/
def clearWeatherIntervalAsync (s : AsyncClientState) : AsyncClientState :=
  match s.weatherUpdateIntervalId with
  | none => s
  | some i =>
    { s with intervals := s.intervals.filter (fun t => t.id ≠ i),
             weatherUpdateIntervalId := none }

/-- The interleavable client events.  `openStart code` is the synchronous
prefix of `openModal` (lines 181-200: clear-guard, then
`currentCountryCodeInModal = countryCode`), after which the handler suspends
at the line-202 `await`; `openResume code detailsOk` is its continuation
running to completion — through the line-241 `setInterval` when the country
details loaded, or through the `catch` block (no interval) when they did
not.  `switchView` and `closeModal` are synchronous handlers and stay
single steps.  `fetchWeatherForCountry` never touches the timer state. -/
inductive AsyncEvent where
  | openStart (code : String)
  | openResume (code : String) (detailsOk : Bool)
  | switchViewEv
  | closeModalEv
  deriving Repr, DecidableEq

/-- One step of the asynchronous client semantics.  An `openResume` with no
matching suspended `openStart` is a no-op: no such continuation exists. -/
def stepAsync (s : AsyncClientState) : AsyncEvent → AsyncClientState
  | .openStart code =>
    let s1 := clearWeatherIntervalAsync s
    { s1 with currentCountryCodeInModal := some code,
              pendingOpens := s1.pendingOpens ++ [code] }
  | .openResume code detailsOk =>
    if code ∈ s.pendingOpens then
      let s1 := { s with pendingOpens := s.pendingOpens.erase code }
      if detailsOk then
        { s1 with
          intervals := { id := s1.nextId, delayMs := 60000,
                         action := weatherTimerAction code } :: s1.intervals,
          weatherUpdateIntervalId := some s1.nextId,
          nextId := s1.nextId + 1 }
      else s1
    else s
  | .switchViewEv =>
    { clearWeatherIntervalAsync s with currentCountryCodeInModal := none }
  | .closeModalEv =>
    { clearWeatherIntervalAsync s with currentCountryCodeInModal := none }

/-- Run a sequence of asynchronous client events from a state. -/
def runAsync (s : AsyncClientState) (es : List AsyncEvent) : AsyncClientState :=
  es.foldl stepAsync s

/-- A serialized client history: each `openModal` runs to completion — its
start immediately followed by its continuation — before the next
timer-touching handler runs. -/
inductive SerializedEvent where
  | openFull (code : String) (detailsOk : Bool)
  | switchViewEv
  | closeModalEv
  deriving Repr, DecidableEq

/-- The asynchronous events making up one serialized event. -/
def serializedSteps : SerializedEvent → List AsyncEvent
  | .openFull code detailsOk => [.openStart code, .openResume code detailsOk]
  | .switchViewEv => [.switchViewEv]
  | .closeModalEv => [.closeModalEv]

/-- The live intervals are exactly the one tracked by
`weatherUpdateIntervalId`, and no `openModal` is suspended mid-flight. -/
def asyncTimerInv (s : AsyncClientState) : Prop :=
  s.intervals.map IntervalTimer.id = s.weatherUpdateIntervalId.toList ∧
  s.pendingOpens = []

/-- Validity flag of a cleaned record (spec §3). -/
inductive Validity where
  | valid
  | partiallyUnavailable
  deriving Repr, DecidableEq

/-- A cleaned field: a numeric measurement or "unavailable" (spec §3).
Measurements are embedded as integers in tenths to stay exact. -/
inductive CleanedField where
  | num (v : Int)
  | unavailable
  deriving Repr, DecidableEq

/-- Modelled from the spec: `WeatherCleanedRecord` (§3), the per-country row
of the cleaned table, which is not part of the client sources.  Timestamps
are seconds since epoch. -/
structure WeatherCleanedRecord where
  temperature : CleanedField
  windspeed : CleanedField
  measurement_time : Nat
  last_updated : Nat
  validity : Validity
  deriving Repr, DecidableEq

/-- Modelled from the spec: the fields the Validator/Cleaner hands to the
Loader (§4.3, §4.4). -/
structure CleanedFields where
  temperature : CleanedField
  windspeed : CleanedField
  measurement_time : Nat
  validity : Validity
  deriving Repr, DecidableEq

/-- Modelled from the spec: the Loader's cleaned-record upsert (§4.4 and the
§3 invariant), absent from the client sources.  "a load with an older or
equal upstream `measurement_time` than the stored one is accepted for
freshness bookkeeping only if it is strictly newer by local clock; a write
must never regress `last_updated`": when a record exists, the write happens
only when the local clock `now` is strictly ahead of the stored
`last_updated`, and otherwise the stored record is kept unchanged. -/
def upsertCleaned (old : Option WeatherCleanedRecord) (f : CleanedFields)
    (now : Nat) : WeatherCleanedRecord :=
  match old with
  | none =>
    { temperature := f.temperature, windspeed := f.windspeed,
      measurement_time := f.measurement_time, last_updated := now,
      validity := f.validity }
  | some o =>
    if o.last_updated < now then
      { temperature := f.temperature, windspeed := f.windspeed,
        measurement_time := f.measurement_time, last_updated := now,
        validity := f.validity }
    else o

/-- Modelled from the spec: a sequence of successive accepted loads for one
country, each carrying cleaned fields and the local clock at write time. -/
def loadSeq (old : Option WeatherCleanedRecord)
    (loads : List (CleanedFields × Nat)) : Option WeatherCleanedRecord :=
  loads.foldl (fun acc fn => some (upsertCleaned acc fn.1 fn.2)) old

/-- Modelled from the spec: the outcome a CacheGateway `get` call resolves to
(§4.1) — a cleaned record or a descriptive failure. -/
inductive GetOutcome where
  | success (rec : WeatherCleanedRecord)
  | failure (reason : String)
  deriving Repr, DecidableEq

/-- Modelled from the spec: the CacheGateway's in-memory coordination state
for one country code (`CacheEntryState`, §3 and §4.1), plus the observables
the single-flight claim speaks about: the cumulative count of Extractor
invocations for this code and the log of outcomes delivered to callers. -/
structure CacheEntry where
  record : Option WeatherCleanedRecord
  fetching : Bool
  waiters : List Nat
  extractorCalls : Nat
  delivered : List (Nat × GetOutcome)
  deriving Repr, DecidableEq

/-- Modelled from the spec: the freshness policy (§4.1) — a stored cleaned
record is fresh when `now - last_updated < TTL` with TTL = 60 seconds. -/
def isFresh (record : Option WeatherCleanedRecord) (now : Nat) : Bool :=
  match record with
  | none => false
  | some r => now - r.last_updated < 60

/-- Modelled from the spec: the atomic events at one country's cache entry —
the arrival of a `get(code, force)` call by a caller, and the resolution of
the in-flight extraction. -/
inductive GatewayEvent where
  | getArrive (caller : Nat) (force : Bool) (now : Nat)
  | resolve (outcome : GetOutcome) (now : Nat)
  deriving Repr, DecidableEq

/-- Modelled from the spec: one atomic step of the per-country state machine
of §4.1.  A `get` while `Fetching` attaches to the pending result; a `get`
on a fresh record without `force` is answered from cache with no extraction;
any other `get` starts exactly one extraction.  `resolve` delivers the same
outcome to every attached caller, releases the token, and on success writes
through the Loader. -/
def stepGateway (e : CacheEntry) : GatewayEvent → CacheEntry
  | .getArrive caller force now =>
    if e.fetching then
      { e with waiters := caller :: e.waiters }
    else if !force && isFresh e.record now then
      match e.record with
      | some r => { e with delivered := (caller, .success r) :: e.delivered }
      | none => e
    else
      { e with fetching := true, waiters := [caller],
               extractorCalls := e.extractorCalls + 1 }
  | .resolve outcome now =>
    if e.fetching then
      { e with
        fetching := false, waiters := [],
        delivered := (e.waiters.map (fun c => (c, outcome))) ++ e.delivered,
        record :=
          match outcome with
          | .success rec => some { rec with last_updated := now }
          | .failure _ => e.record }
    else e

/-- Modelled from the spec: run a sequence of gateway events at one entry. -/
def runGateway (e : CacheEntry) (es : List GatewayEvent) : CacheEntry :=
  es.foldl stepGateway e

/-- Current `last_updated` of an optional stored cleaned record (0 when the
cleaned table has no row for the country). -/
def lastUpdatedOf (r : Option WeatherCleanedRecord) : Nat :=
  match r with
  | none => 0
  | some o => o.last_updated

/-- Modelled from the spec: an Empty cache entry — no cleaned record, no
extraction in flight, nothing delivered yet. -/
def idleEntry : CacheEntry :=
  { record := none, fetching := false, waiters := [],
    extractorCalls := 0, delivered := [] }

/-- C3: the claim says `fetchWeatherForCountry(code, true)` (the button)
issues a request conveying a force indication that the timer's
`fetchWeatherForCountry(code, false)` does not.  In the code the `force`
parameter is accepted (the button passes `true`, the timer `false`) but never
used: the issued request and the whole observable behaviour of the function
are identical for both flag values. -/
theorem force_flag_not_conveyed : ∀ code : String,
    (consultarClimaBtnAction code).force = true ∧
    (weatherTimerAction code).force = false ∧
    weatherRequestUrl code true = weatherRequestUrl code false ∧
    fetchWeatherForCountry code true = fetchWeatherForCountry code false := by
  intro code
  exact ⟨rfl, rfl, rfl, rfl⟩

/-- C7: one invocation of `fetchWeatherForCountry` issues at most one request
to the weather endpoint, on every path (missing elements, 200, non-ok,
thrown error); there is no retry within the invocation. -/
theorem fetchWeather_at_most_one_request (cca3 : String) (force present : Bool)
    (resp : WeatherResponse) :
    (fetchWeatherForCountry cca3 force present resp).requests ≤ 1 := by
  cases present with
  | false => simp [fetchWeatherForCountry]
  | true =>
    cases resp with
    | ok body =>
      by_cases hm : body.message.truthy <;>
        by_cases hna : body.temperature ≠ JVal.str "N/A" ∧
          body.windspeed ≠ JVal.str "N/A" <;>
        simp [fetchWeatherForCountry, hm, hna]
    | httpErr detail => simp [fetchWeatherForCountry]
    | netErr m => simp [fetchWeatherForCountry]

/-- C10: `fetchWeatherForCountry` restores the interactive UI state on every
path — when a required DOM element is missing it returns without issuing a
request and without touching the UI, and otherwise it terminates (success,
non-ok response, or thrown error alike) with the spinner hidden, the button
re-enabled, and the label reset to "Consultar Clima". -/
theorem fetchWeather_restores_ui (cca3 : String) (force : Bool)
    (resp : WeatherResponse) :
    fetchWeatherForCountry cca3 force false resp = ⟨0, none⟩ ∧
    ∃ u, (fetchWeatherForCountry cca3 force true resp).ui = some u ∧
      u.spinnerHidden = true ∧ u.btnDisabled = false ∧
      u.btnText = "Consultar Clima" := by
  refine ⟨rfl, ?_⟩
  cases resp with
  | ok body =>
    by_cases hm : body.message.truthy
    · refine ⟨⟨body.message.render, .empty, true, false, "Consultar Clima"⟩,
        ?_, rfl, rfl, rfl⟩
      simp [fetchWeatherForCountry, hm]
    · by_cases hna : body.temperature ≠ JVal.str "N/A" ∧
        body.windspeed ≠ JVal.str "N/A"
      · refine ⟨⟨"Clima actual:",
          .weather body.temperature body.windspeed body.time body.last_updated,
          true, false, "Consultar Clima"⟩, ?_, rfl, rfl, rfl⟩
        simp [fetchWeatherForCountry, hm, hna]
      · refine ⟨⟨"Datos de clima no disponibles o incompletos.", .empty,
          true, false, "Consultar Clima"⟩, ?_, rfl, rfl, rfl⟩
        simp [fetchWeatherForCountry, hm, hna]
  | httpErr detail =>
    exact ⟨⟨"Error al cargar clima: " ++
      (if detail.truthy then detail.render else "No se pudo obtener el clima."),
      .empty, true, false, "Consultar Clima"⟩, rfl, rfl, rfl, rfl⟩
  | netErr m =>
    exact ⟨⟨"Error al cargar clima: " ++ m, .empty, true, false,
      "Consultar Clima"⟩, rfl, rfl, rfl, rfl⟩

/-- C5: for a 200 weather response, a truthy `message` field is displayed as
the weather status with no details rendered; otherwise, when both
`temperature` and `windspeed` differ from "N/A", the client renders the
temperature, the windspeed, the upstream measurement time and
`last_updated`, under the status "Clima actual:". -/
theorem weather200_render (cca3 : String) (force : Bool) (body : WeatherBody) :
    (body.message.truthy = true →
      fetchWeatherForCountry cca3 force true (.ok body) =
        ⟨1, some ⟨body.message.render, .empty, true, false, "Consultar Clima"⟩⟩) ∧
    (body.message.truthy = false → body.temperature ≠ JVal.str "N/A" →
      body.windspeed ≠ JVal.str "N/A" →
      fetchWeatherForCountry cca3 force true (.ok body) =
        ⟨1, some ⟨"Clima actual:",
          .weather body.temperature body.windspeed body.time body.last_updated,
          true, false, "Consultar Clima"⟩⟩) := by
  constructor
  · intro hm
    simp [fetchWeatherForCountry, hm]
  · intro hm ht hw
    simp [fetchWeatherForCountry, hm, ht, hw]

/-- Concrete run of `weather200_render`: a body carrying a message, and a body
carrying both measurements. -/
theorem weather200_render_witness :
    JVal.truthy (.str "Pipeline en curso") = true ∧
    fetchWeatherForCountry "CRI" false true
        (.ok ⟨.str "Pipeline en curso", .absent, .absent, .absent, .absent⟩) =
      ⟨1, some ⟨"Pipeline en curso", .empty, true, false, "Consultar Clima"⟩⟩ ∧
    JVal.truthy .absent = false ∧
    fetchWeatherForCountry "CRI" false true
        (.ok ⟨.absent, .num 25, .num 3, .str "2025-10-11T10:00",
          .str "2025-10-11T10:00:30"⟩) =
      ⟨1, some ⟨"Clima actual:",
        .weather (.num 25) (.num 3) (.str "2025-10-11T10:00")
          (.str "2025-10-11T10:00:30"),
        true, false, "Consultar Clima"⟩⟩ :=
  ⟨by decide,
   (weather200_render "CRI" false _).1 (by decide),
   by decide,
   (weather200_render "CRI" false _).2 (by decide) (by decide) (by decide)⟩

/-- C6: for a non-ok response from the weather endpoint, the client shows a
failure text built from the body's `detail` field — falling back to the
generic "No se pudo obtener el clima." when `detail` is absent or falsy —
and clears the details area; the failure always lands in the status text,
never silently swallowed. -/
theorem weatherError_surfaced (cca3 : String) (force : Bool) (detail : JVal) :
    (detail.truthy = true →
      fetchWeatherForCountry cca3 force true (.httpErr detail) =
        ⟨1, some ⟨"Error al cargar clima: " ++ detail.render, .empty,
          true, false, "Consultar Clima"⟩⟩) ∧
    (detail.truthy = false →
      fetchWeatherForCountry cca3 force true (.httpErr detail) =
        ⟨1, some ⟨"Error al cargar clima: " ++ "No se pudo obtener el clima.",
          .empty, true, false, "Consultar Clima"⟩⟩) := by
  constructor
  · intro hd
    simp [fetchWeatherForCountry, hd]
  · intro hd
    simp [fetchWeatherForCountry, hd]

/-- Concrete run of `weatherError_surfaced`: a 404 body with a `detail` field
and a 500 body without one. -/
theorem weatherError_surfaced_witness :
    JVal.truthy (.str "País no encontrado") = true ∧
    fetchWeatherForCountry "XXX" false true
        (.httpErr (.str "País no encontrado")) =
      ⟨1, some ⟨"Error al cargar clima: País no encontrado", .empty,
        true, false, "Consultar Clima"⟩⟩ ∧
    JVal.truthy .absent = false ∧
    fetchWeatherForCountry "CRI" false true (.httpErr .absent) =
      ⟨1, some ⟨"Error al cargar clima: No se pudo obtener el clima.", .empty,
        true, false, "Consultar Clima"⟩⟩ :=
  ⟨by decide,
   (weatherError_surfaced "XXX" false _).1 (by decide),
   by decide,
   (weatherError_surfaced "CRI" false _).2 (by decide)⟩

/-- C8: a 200 body without a truthy `message` in which `temperature` or
`windspeed` equals "N/A" makes the client display "Datos de clima no
disponibles o incompletos." and render neither measurement — the single
usable field of a partially-available record is never shown. -/
theorem weatherPartial_hidden (cca3 : String) (force : Bool)
    (body : WeatherBody) (hm : body.message.truthy = false)
    (hna : body.temperature = JVal.str "N/A" ∨ body.windspeed = JVal.str "N/A") :
    fetchWeatherForCountry cca3 force true (.ok body) =
      ⟨1, some ⟨"Datos de clima no disponibles o incompletos.", .empty,
        true, false, "Consultar Clima"⟩⟩ := by
  have hcond : ¬(body.temperature ≠ JVal.str "N/A" ∧
      body.windspeed ≠ JVal.str "N/A") := by
    rcases hna with h | h <;> simp [h]
  simp [fetchWeatherForCountry, hm, hcond]

/-- Concrete run of `weatherPartial_hidden`: a usable windspeed next to an
unavailable temperature is not rendered. -/
theorem weatherPartial_hidden_witness :
    JVal.truthy .absent = false ∧
    (JVal.str "N/A" = JVal.str "N/A" ∨ (JVal.num 5 : JVal) = JVal.str "N/A") ∧
    fetchWeatherForCountry "CRI" false true
        (.ok ⟨.absent, .str "N/A", .num 5, .str "2025-10-11T10:00", .absent⟩) =
      ⟨1, some ⟨"Datos de clima no disponibles o incompletos.", .empty,
        true, false, "Consultar Clima"⟩⟩ :=
  ⟨by decide, by decide,
   weatherPartial_hidden "CRI" false _ (by decide) (Or.inl rfl)⟩

/-- C4: a successful `openModal` for a country starts exactly the interval
recorded in `weatherUpdateIntervalId`, with a 60000 ms (60 s) delay, whose
action is the non-forced weather fetch for the displayed country; the timer
is created by the client, not by the pipeline. -/
theorem openModal_starts_60s_timer (s : ClientState) (code : String) :
    ∃ t : IntervalTimer, t ∈ (openModal s code true).intervals ∧
      (openModal s code true).weatherUpdateIntervalId = some t.id ∧
      t.delayMs = 60000 ∧ t.action = weatherTimerAction code ∧
      t.action.force = false := by
  refine ⟨⟨(clearWeatherInterval s).nextId, 60000, weatherTimerAction code⟩,
    ?_, ?_, rfl, rfl, rfl⟩
  · simp [openModal]
  · simp [openModal]

/-- C9 counterexample: `openModal` for PER suspends at its first `await`
(script.js line 202); the user closes the modal (the clear-guard finds
`weatherUpdateIntervalId` null and removes nothing) and opens the modal for
ARG, which runs its own clear-guard (still null) and suspends too; then both
continuations execute the line-241 `setInterval`.  Two weather intervals are
live at once, and the first is no longer tracked by
`weatherUpdateIntervalId`, so no later clear-guard can ever remove it — the
"at most one weather-update interval timer active at any time" invariant is
false. -/
theorem two_live_timers_after_interleaved_open :
    ¬((runAsync initialAsyncState
        [.openStart "PER", .closeModalEv, .openStart "ARG",
         .openResume "PER" true, .openResume "ARG" true]).intervals.length ≤ 1) ∧
    (runAsync initialAsyncState
        [.openStart "PER", .closeModalEv, .openStart "ARG",
         .openResume "PER" true, .openResume "ARG" true]).intervals.length = 2 ∧
    (runAsync initialAsyncState
        [.openStart "PER", .closeModalEv, .openStart "ARG",
         .openResume "PER" true, .openResume "ARG" true]).weatherUpdateIntervalId
      = some 1 ∧
    ({ id := 0, delayMs := 60000, action := weatherTimerAction "PER" }
        : IntervalTimer) ∈
      (runAsync initialAsyncState
        [.openStart "PER", .closeModalEv, .openStart "ARG",
         .openResume "PER" true, .openResume "ARG" true]).intervals := by
  refine ⟨?_, rfl, rfl, ?_⟩
  · decide
  · decide

/-- Clearing helper: when the live intervals are exactly the tracked one, the
async clear-guard leaves no live interval and a null id, and touches neither
`nextId` nor the pending continuations. -/
theorem clearAsync_empties (s : AsyncClientState)
    (h : s.intervals.map IntervalTimer.id = s.weatherUpdateIntervalId.toList) :
    (clearWeatherIntervalAsync s).intervals = [] ∧
    (clearWeatherIntervalAsync s).weatherUpdateIntervalId = none ∧
    (clearWeatherIntervalAsync s).nextId = s.nextId ∧
    (clearWeatherIntervalAsync s).pendingOpens = s.pendingOpens := by
  unfold clearWeatherIntervalAsync
  cases hid : s.weatherUpdateIntervalId with
  | none =>
    rw [hid] at h
    simp only [Option.toList] at h
    rw [List.map_eq_nil_iff] at h
    simp [h, hid]
  | some i =>
    rw [hid] at h
    cases hint : s.intervals with
    | nil => simp
    | cons t ts =>
      rw [hint] at h
      simp only [Option.toList, List.map_cons, List.cons.injEq] at h
      obtain ⟨hti, hts⟩ := h
      rw [List.map_eq_nil_iff] at hts
      subst hts
      simp [hint, List.filter, hti]

/-- One serialized event preserves `asyncTimerInv`. -/
theorem asyncTimerInv_step (s : AsyncClientState) (e : SerializedEvent)
    (h : asyncTimerInv s) :
    asyncTimerInv (runAsync s (serializedSteps e)) := by
  obtain ⟨hmap, hpend⟩ := h
  obtain ⟨hi, hid, hn, hp⟩ := clearAsync_empties s hmap
  cases e with
  | openFull code detailsOk =>
    have h1 : stepAsync s (.openStart code) =
        { intervals := [], nextId := s.nextId,
          weatherUpdateIntervalId := none,
          currentCountryCodeInModal := some code,
          pendingOpens := [code] } := by
      simp [stepAsync, hi, hid, hn, hp, hpend]
    cases detailsOk with
    | true =>
      unfold runAsync serializedSteps
      simp only [List.foldl_cons, List.foldl_nil]
      rw [h1]
      unfold asyncTimerInv stepAsync
      simp
    | false =>
      unfold runAsync serializedSteps
      simp only [List.foldl_cons, List.foldl_nil]
      rw [h1]
      unfold asyncTimerInv stepAsync
      simp
  | switchViewEv =>
    unfold runAsync serializedSteps
    simp only [List.foldl_cons, List.foldl_nil]
    unfold asyncTimerInv stepAsync
    simp [hi, hid, hp, hpend]
  | closeModalEv =>
    unfold runAsync serializedSteps
    simp only [List.foldl_cons, List.foldl_nil]
    unfold asyncTimerInv stepAsync
    simp [hi, hid, hp, hpend]

/-- `asyncTimerInv` holds along any serialized run. -/
theorem asyncTimerInv_run (es : List SerializedEvent) (s : AsyncClientState)
    (h : asyncTimerInv s) :
    asyncTimerInv (runAsync s (es.flatMap serializedSteps)) := by
  induction es generalizing s with
  | nil => exact h
  | cons e rest ih =>
    have hsplit : runAsync s ((e :: rest).flatMap serializedSteps) =
        runAsync (runAsync s (serializedSteps e))
          (rest.flatMap serializedSteps) := by
      unfold runAsync
      rw [List.flatMap_cons, List.foldl_append]
    rw [hsplit]
    exact ih (runAsync s (serializedSteps e)) (asyncTimerInv_step s e h)

/-- C9 (amended): the three handlers each clear the tracked interval and null
`weatherUpdateIntervalId` before a new interval can be created, so in any
history where each `openModal` runs to completion before the next
timer-touching handler (no interleaving at its `await` points), at most one
weather interval is live at any time, and a `switchView` or `closeModal`
additionally leaves `currentCountryCodeInModal` null and no interval at
all.  With interleaved `openModal` continuations the bound fails — see the
counterexample. -/
theorem single_weather_timer_serialized (es : List SerializedEvent) :
    (runAsync initialAsyncState (es.flatMap serializedSteps)).intervals.length
      ≤ 1 ∧
    (stepAsync (runAsync initialAsyncState (es.flatMap serializedSteps))
        .switchViewEv).currentCountryCodeInModal = none ∧
    (stepAsync (runAsync initialAsyncState (es.flatMap serializedSteps))
        .switchViewEv).intervals = [] ∧
    (stepAsync (runAsync initialAsyncState (es.flatMap serializedSteps))
        .switchViewEv).weatherUpdateIntervalId = none ∧
    (stepAsync (runAsync initialAsyncState (es.flatMap serializedSteps))
        .closeModalEv).currentCountryCodeInModal = none ∧
    (stepAsync (runAsync initialAsyncState (es.flatMap serializedSteps))
        .closeModalEv).intervals = [] ∧
    (stepAsync (runAsync initialAsyncState (es.flatMap serializedSteps))
        .closeModalEv).weatherUpdateIntervalId = none := by
  have hinv : asyncTimerInv (runAsync initialAsyncState
      (es.flatMap serializedSteps)) :=
    asyncTimerInv_run es initialAsyncState ⟨rfl, rfl⟩
  obtain ⟨hmap, hpend⟩ := hinv
  obtain ⟨hi, hid, hn, hp⟩ := clearAsync_empties _ hmap
  have hlen : (runAsync initialAsyncState
      (es.flatMap serializedSteps)).intervals.length ≤ 1 := by
    have hm := congrArg List.length hmap
    rw [List.length_map] at hm
    rw [hm]
    cases (runAsync initialAsyncState
      (es.flatMap serializedSteps)).weatherUpdateIntervalId <;> simp
  exact ⟨hlen, rfl, by simp [stepAsync, hi], by simp [stepAsync, hid],
    rfl, by simp [stepAsync, hi], by simp [stepAsync, hid]⟩

/-- C2: the Loader's upsert never regresses `last_updated` — for any cleaned
fields, whatever upstream `measurement_time` they carry (older, equal or
newer than the stored one), a single load and any sequence of successive
loads leave the stored `last_updated` no smaller than before. -/
theorem last_updated_monotone :
    (∀ (o : WeatherCleanedRecord) (f : CleanedFields) (now : Nat),
      o.last_updated ≤ (upsertCleaned (some o) f now).last_updated) ∧
    ∀ (old : Option WeatherCleanedRecord) (loads : List (CleanedFields × Nat)),
      lastUpdatedOf old ≤ lastUpdatedOf (loadSeq old loads) := by
  have hstep : ∀ (o : WeatherCleanedRecord) (f : CleanedFields) (now : Nat),
      o.last_updated ≤ (upsertCleaned (some o) f now).last_updated := by
    intro o f now
    unfold upsertCleaned
    by_cases h : o.last_updated < now
    · simp [h]
      omega
    · simp [h]
  refine ⟨hstep, ?_⟩
  intro old loads
  induction loads generalizing old with
  | nil => exact Nat.le_refl _
  | cons fn rest ih =>
    have hone : lastUpdatedOf old ≤
        lastUpdatedOf (some (upsertCleaned old fn.1 fn.2)) := by
      cases old with
      | none => exact Nat.zero_le _
      | some o => exact hstep o fn.1 fn.2
    calc lastUpdatedOf old
        ≤ lastUpdatedOf (some (upsertCleaned old fn.1 fn.2)) := hone
      _ ≤ lastUpdatedOf (loadSeq (some (upsertCleaned old fn.1 fn.2)) rest) :=
          ih (some (upsertCleaned old fn.1 fn.2))

/-- Folding further `get` arrivals over an entry whose extraction is in
flight only attaches the callers: no new extraction starts, nothing is
delivered yet, and the record is untouched. -/
theorem runGateway_attach (calls : List (Nat × Bool)) (e : CacheEntry)
    (h : e.fetching = true) (now : Nat) :
    runGateway e (calls.map fun cf => GatewayEvent.getArrive cf.1 cf.2 now) =
      { e with waiters := (calls.map Prod.fst).reverse ++ e.waiters } := by
  induction calls generalizing e with
  | nil => simp [runGateway]
  | cons c rest ih =>
    have hstep : stepGateway e (GatewayEvent.getArrive c.1 c.2 now) =
        { e with waiters := c.1 :: e.waiters } := by
      simp [stepGateway, h]
    have hrun : runGateway e
        (((c :: rest).map fun cf => GatewayEvent.getArrive cf.1 cf.2 now)) =
        runGateway { e with waiters := c.1 :: e.waiters }
          (rest.map fun cf => GatewayEvent.getArrive cf.1 cf.2 now) := by
      simp [runGateway, hstep]
    rw [hrun, ih { e with waiters := c.1 :: e.waiters } h]
    simp

/-- C1: single-flight per country — from an entry with no extraction in
flight and no fresh cleaned record, any nonempty batch of `get` arrivals
(whatever their force flags) followed by the resolution triggers exactly one
Extractor invocation, and every one of the callers is delivered that same
resolved outcome. -/
theorem gateway_single_flight (e : CacheEntry) (calls : List (Nat × Bool))
    (now tR : Nat) (outcome : GetOutcome)
    (hf : e.fetching = false)
    (hfresh : isFresh e.record now = false) (hne : calls ≠ []) :
    (runGateway e ((calls.map fun cf => GatewayEvent.getArrive cf.1 cf.2 now)
        ++ [GatewayEvent.resolve outcome tR])).extractorCalls
      = e.extractorCalls + 1 ∧
    ∀ cf ∈ calls, (cf.1, outcome) ∈
      (runGateway e ((calls.map fun cf => GatewayEvent.getArrive cf.1 cf.2 now)
        ++ [GatewayEvent.resolve outcome tR])).delivered := by
  cases calls with
  | nil => exact absurd rfl hne
  | cons c rest =>
    have hstep1 : stepGateway e (GatewayEvent.getArrive c.1 c.2 now) =
        { e with fetching := true, waiters := [c.1],
                 extractorCalls := e.extractorCalls + 1 } := by
      simp [stepGateway, hf, hfresh]
    have hsplit : runGateway e
        (((c :: rest).map fun cf => GatewayEvent.getArrive cf.1 cf.2 now)
          ++ [GatewayEvent.resolve outcome tR]) =
        stepGateway (runGateway
          { e with fetching := true, waiters := [c.1],
                   extractorCalls := e.extractorCalls + 1 }
          (rest.map fun cf => GatewayEvent.getArrive cf.1 cf.2 now))
          (GatewayEvent.resolve outcome tR) := by
      simp [runGateway, List.foldl_append, hstep1]
    rw [hsplit, runGateway_attach rest _ rfl now]
    constructor
    · cases outcome <;> simp [stepGateway]
    · intro cf hcf
      have hmem : cf.1 ∈ (rest.map Prod.fst).reverse ++ [c.1] := by
        rcases List.mem_cons.mp hcf with hceq | hmr
        · rw [hceq]
          exact List.mem_append_right _ (List.mem_singleton.mpr rfl)
        · exact List.mem_append_left _
            (List.mem_reverse.mpr (List.mem_map_of_mem Prod.fst hmr))
      cases outcome <;>
        simp only [stepGateway, if_pos] <;>
        exact List.mem_append_left _
          (List.mem_map.mpr ⟨cf.1, hmem, rfl⟩)

/-- Concrete run of `gateway_single_flight`: three callers arriving at an
Empty entry, mixed force flags, one failing extraction — one Extractor call,
all three delivered the same failure. -/
theorem gateway_single_flight_witness :
    idleEntry.fetching = false ∧
    isFresh idleEntry.record 100 = false ∧
    ([(1, false), (2, true), (3, false)] : List (Nat × Bool)) ≠ [] ∧
    ((runGateway idleEntry
        ((([(1, false), (2, true), (3, false)] : List (Nat × Bool)).map
          fun cf => GatewayEvent.getArrive cf.1 cf.2 100)
          ++ [GatewayEvent.resolve (GetOutcome.failure "upstream timeout") 105])
      ).extractorCalls = idleEntry.extractorCalls + 1 ∧
     ∀ cf ∈ ([(1, false), (2, true), (3, false)] : List (Nat × Bool)),
       (cf.1, GetOutcome.failure "upstream timeout") ∈
         (runGateway idleEntry
           ((([(1, false), (2, true), (3, false)] : List (Nat × Bool)).map
             fun cf => GatewayEvent.getArrive cf.1 cf.2 100)
             ++ [GatewayEvent.resolve (GetOutcome.failure "upstream timeout")
                  105])).delivered) :=
  ⟨rfl, rfl, by decide,
   gateway_single_flight idleEntry [(1, false), (2, true), (3, false)]
     100 105 (GetOutcome.failure "upstream timeout") rfl rfl (by decide)⟩
